import Mathlib

/-!
Verification of the database timing framework
(`app/commons/timing/database.py`) and the asynchronous Kafka producer
bridge (`app/commons/async_kafka_producer.py`) of this repository,
through a shallow embedding of the relevant code in Lean.
-/

/-- Exception kinds relevant to `QueryTimer.__exit__` classification: the
four timeout-like classes named in the `isinstance` tuple of
`app/commons/timing/database.py` (lines 137-146), and `other s` for any
other exception class whose formatted name is `s`. -/
inductive ExcKind where
  | asyncioTimeoutError
  | asyncioCancelledError
  | futuresTimeoutError
  | queryCanceledError
  | other (name : String)
  deriving DecidableEq, Repr

/-- Membership in the known timeout tuple
`(asyncio.TimeoutError, asyncio.CancelledError,
concurrent.futures.TimeoutError, QueryCanceledError)` tested by the
`isinstance` call in `QueryTimer.__exit__`. -/
def isTimeoutLike : ExcKind → Bool
  | .other _ => false
  | _ => true

/-- Modelled from the spec: `format_exc_name` is imported from
`app.commons.timing.base`, a module of this repository not present in the
provided sources. Per spec section 4.1 the exit path classifies "the
exception's type name" into `exception_name`, so the model returns the
name of the exception class. -/
def format_exc_name : ExcKind → String
  | .asyncioTimeoutError => "asyncio.TimeoutError"
  | .asyncioCancelledError => "asyncio.CancelledError"
  | .futuresTimeoutError => "concurrent.futures.TimeoutError"
  | .queryCanceledError => "QueryCanceledError"
  | .other n => n

/-- Value of `QueryStatus.success` ("success"), the default request status
of a `QueryTimer` (database.py line 100). `QueryStatus` is a `str` enum,
so members compare equal to their string values. -/
def QueryStatus.success : String := "success"

/-- Value of `QueryStatus.timeout` ("timeout"). -/
def QueryStatus.timeout : String := "timeout"

/-- Value of `QueryStatus.error` ("error"). -/
def QueryStatus.error : String := "error"

/-- Value of `TransactionStatus.commit` ("commit"), the initial
`request_status` of a `TransactionTimer` (database.py line 174). -/
def TransactionStatus.commit : String := "commit"

/-- Value of `TransactionStatus.rollback` ("rollback"). -/
def TransactionStatus.rollback : String := "rollback"

/-- Value of `TransactionStatus.error` ("error"). -/
def TransactionStatus.error : String := "error"

/-- State of a `QueryTimer` (database.py lines 94-115). Timestamps are
modelled as naturals; `none` means the timestamp has not been recorded.
The `database`, `additional_ignores` and stack-frame fields play no role
in the claims about `__exit__` and are omitted from the state. -/
structure QueryTimer where
  startTime : Option Nat := none
  endTime : Option Nat := none
  request_status : String := QueryStatus.success
  exception_name : String := ""
  calling_module_name : String := ""
  calling_function_name : String := ""
  deriving DecidableEq, Repr

/-- Shallow embedding of `QueryTimer.__exit__` (database.py lines
117-152), evaluated at clock value `now`. `exc = none` models
`exc_type is None`; `some e` models an exit with raised exception `e`.
The returned `Bool` is the value handed to the context-manager protocol
(`false` = the exception is not suppressed). The `super().__exit__` call
reaches `app.commons.tracing.BaseTimer`, a module of this repository not
in the provided sources; modelled from the spec (section 4.1): it records
the end timestamp unconditionally. The status guard is the source's
`if self.request_status and self.request_status != QueryStatus.success`,
where a `str` is truthy exactly when it is nonempty. -/
def QueryTimer.exitTimer (t : QueryTimer) (exc : Option ExcKind) (now : Nat) :
    QueryTimer × Bool :=
  let t0 := { t with endTime := some now }
  match exc with
  | none => (t0, false)
  | some e =>
    let t1 := { t0 with exception_name := format_exc_name e }
    if t1.request_status ≠ "" ∧ t1.request_status ≠ QueryStatus.success then
      (t1, false)
    else if isTimeoutLike e then
      ({ t1 with request_status := QueryStatus.timeout }, false)
    else
      ({ t1 with request_status := QueryStatus.error }, false)

/-- A freshly constructed `QueryTimer`: all class-level defaults
(database.py lines 100-101). -/
def queryTimerDefault : QueryTimer := {}

/-- A freshly constructed `TransactionTimer`: identical to a
`QueryTimer` except that the class-level default of `request_status` is
`TransactionStatus.commit` (database.py line 174). -/
def transactionTimerDefault : QueryTimer :=
  { request_status := TransactionStatus.commit }

/-- Shallow embedding of `TransactionTimer.process_result` (database.py
lines 176-178): sets `request_status` to the supplied transaction status.
The `super().process_result` call reaches `app.commons.tracing`, not in
the provided sources; modelled from the spec (section 4.1):
`process_result` explicitly sets the status to the caller-supplied phase
outcome and does nothing else observable to the timer state. -/
def QueryTimer.processResult (t : QueryTimer) (result : String) : QueryTimer :=
  { t with request_status := result }

/-- C1: for every measured span exited with a raised exception,
`QueryTimer.__exit__` sets `request_status` to `timeout` when the
exception is one of `asyncio.TimeoutError`, `asyncio.CancelledError`,
`concurrent.futures.TimeoutError`, or `QueryCanceledError`, and to
`error` for any other exception; when the span exits with no exception,
`request_status` remains the success default. -/
theorem C1_exit_classification (t : QueryTimer) (now : Nat)
    (h : t.request_status = QueryStatus.success) :
    (t.exitTimer (some .asyncioTimeoutError) now).1.request_status =
        QueryStatus.timeout ∧
    (t.exitTimer (some .asyncioCancelledError) now).1.request_status =
        QueryStatus.timeout ∧
    (t.exitTimer (some .futuresTimeoutError) now).1.request_status =
        QueryStatus.timeout ∧
    (t.exitTimer (some .queryCanceledError) now).1.request_status =
        QueryStatus.timeout ∧
    (∀ s : String,
      (t.exitTimer (some (.other s)) now).1.request_status =
        QueryStatus.error) ∧
    (t.exitTimer none now).1.request_status = QueryStatus.success := by
  refine ⟨?_, ?_, ?_, ?_, ?_, ?_⟩ <;>
    simp [QueryTimer.exitTimer, h, isTimeoutLike, QueryStatus.success]

/-- Witness for C1 at a freshly constructed timer. -/
theorem C1_exit_classification_witness :
    (queryTimerDefault.exitTimer (some .asyncioTimeoutError) 0).1.request_status =
        QueryStatus.timeout ∧
    (queryTimerDefault.exitTimer (some (.other "ValueError")) 0).1.request_status =
        QueryStatus.error :=
  ⟨(C1_exit_classification queryTimerDefault 0 rfl).1,
   (C1_exit_classification queryTimerDefault 0 rfl).2.2.2.2.1 "ValueError"⟩

/-- C2: status is sticky: for every timer whose `request_status` is
already a non-default (truthy and non-success) value, a subsequent
`__exit__` with any exception class leaves `request_status` unchanged and
only records `exception_name`. -/
theorem C2_status_sticky (t : QueryTimer) (e : ExcKind) (now : Nat)
    (hne : t.request_status ≠ "") (hns : t.request_status ≠ QueryStatus.success) :
    (t.exitTimer (some e) now).1.request_status = t.request_status ∧
    (t.exitTimer (some e) now).1.exception_name = format_exc_name e := by
  constructor <;> simp [QueryTimer.exitTimer, hne, hns]

/-- Witness for C2 at a timer whose status was pre-set to "rollback". -/
theorem C2_status_sticky_witness :
    (({ request_status := TransactionStatus.rollback } : QueryTimer).exitTimer
        (some .asyncioTimeoutError) 0).1.request_status =
      TransactionStatus.rollback ∧
    (({ request_status := TransactionStatus.rollback } : QueryTimer).exitTimer
        (some .asyncioTimeoutError) 0).1.exception_name =
      format_exc_name .asyncioTimeoutError :=
  C2_status_sticky { request_status := TransactionStatus.rollback }
    .asyncioTimeoutError 0 (by decide) (by decide)

/-- C3: a fresh `TransactionTimer` (no `process_result` call yet) starts
with `request_status = "commit"`, which the `__exit__` guard treats as
already set; exiting it with any exception records `exception_name` but
never reclassifies the status, and exception-based classification only
ever changes the status of a timer whose current (truthy) status equals
"success". -/
theorem C3_transaction_timer_no_reclassify (e : ExcKind) (now : Nat)
    (t : QueryTimer) (hne : t.request_status ≠ "") :
    transactionTimerDefault.request_status = TransactionStatus.commit ∧
    (transactionTimerDefault.exitTimer (some e) now).1.request_status =
      TransactionStatus.commit ∧
    (transactionTimerDefault.exitTimer (some e) now).1.exception_name =
      format_exc_name e ∧
    ((t.exitTimer (some e) now).1.request_status ≠ t.request_status →
      t.request_status = QueryStatus.success) := by
  refine ⟨rfl, ?_, ?_, ?_⟩
  · exact (C2_status_sticky transactionTimerDefault e now
      (by decide) (by decide)).1
  · exact (C2_status_sticky transactionTimerDefault e now
      (by decide) (by decide)).2
  · intro hchange
    by_cases hs : t.request_status = QueryStatus.success
    · exact hs
    · exact absurd (C2_status_sticky t e now hne hs).1 hchange

/-- Witness for C3 at a concrete non-empty-status timer and exception. -/
theorem C3_transaction_timer_no_reclassify_witness :
    (transactionTimerDefault.exitTimer (some (.other "ValueError")) 0).1.request_status =
      TransactionStatus.commit ∧
    ((queryTimerDefault.exitTimer (some (.other "ValueError")) 0).1.request_status ≠
        queryTimerDefault.request_status →
      queryTimerDefault.request_status = QueryStatus.success) :=
  ⟨(C3_transaction_timer_no_reclassify (.other "ValueError") 0 queryTimerDefault
      (by decide)).2.1,
   (C3_transaction_timer_no_reclassify (.other "ValueError") 0 queryTimerDefault
      (by decide)).2.2.2⟩

/-- C9: `QueryTimer.__exit__` returns `False` ("not handled") on every
path, for every combination of exception info, so the original exception
always propagates to the operation's caller. -/
theorem C9_exit_never_suppresses (t : QueryTimer) (exc : Option ExcKind)
    (now : Nat) : (t.exitTimer exc now).2 = false := by
  cases exc with
  | none => rfl
  | some e =>
    unfold QueryTimer.exitTimer
    dsimp only
    split
    · rfl
    · split <;> rfl

/-- Entries registered on a transaction's `contextlib.ExitStack` during
`TransactionTimingManager.start` (database.py lines 401-415): the tracker
timer context registered by `_start_tracker`, and the
`tracing.breadcrumb_ctxt_manager` context that records the transaction
name. -/
inductive StackEntry where
  | timerCtx
  | breadcrumbCtx
  deriving DecidableEq, Repr

/-- Observable state of a tracked transaction (`TrackedTransaction`
object with `tracker`/`stack` attributes, database.py lines 32-35)
together with the instrumentation the claims observe: how many times the
breadcrumb context was released, how many times the transaction processor
list ran, and which phase entry points were invoked (with the exception
info handed to `error`). `now` is the ambient clock. -/
structure TxWorld where
  tracker : Option QueryTimer := none
  stack : Option (List StackEntry) := none
  breadcrumbDepth : Nat := 0
  breadcrumbReleases : Nat := 0
  processorRuns : Nat := 0
  commitCalls : Nat := 0
  rollbackCalls : Nat := 0
  errorCallExcs : List (Option ExcKind) := []
  now : Nat := 0
  deriving DecidableEq, Repr

/-- Effect of unwinding one registered context during
`ExitStack.__exit__` with exception info `exc`: the timer context runs
`QueryTimer.__exit__` on the shared tracker object; the breadcrumb
context pops the ambient transaction name (one release). -/
def runStackEntry (exc : Option ExcKind) (w : TxWorld) : StackEntry → TxWorld
  | .timerCtx =>
    match w.tracker with
    | none => w
    | some t => { w with tracker := some (t.exitTimer exc w.now).1 }
  | .breadcrumbCtx =>
    { w with breadcrumbDepth := w.breadcrumbDepth - 1,
             breadcrumbReleases := w.breadcrumbReleases + 1 }

/-- Documented semantics of `contextlib.ExitStack.__exit__` (contextlib
is the Python standard library, external to this repository): run every
registered context exit in LIFO order and leave the stack empty, so that
a second `__exit__` call finds no registered contexts and runs nothing. -/
def exitStack (exc : Option ExcKind) (w : TxWorld) : TxWorld :=
  match w.stack with
  | none => w
  | some entries =>
    let w1 := entries.reverse.foldl (runStackEntry exc) w
    { w1 with stack := some [] }

/-- Modelled from the spec: `TimingManager._exit_tracker` lives in
`app.commons.tracing`, a module of this repository not present in the
provided sources. Per spec section 4.3 a terminal phase "sets the Timer's
status to ... via `process_result`, runs transaction Processors"; per
section 3, "after any terminal phase the Timer/stack references must be
cleared or treated as spent (a second terminal call must be a no-op, not
a double-release)". The model therefore treats a tracker whose end
timestamp is already recorded as spent (nothing is re-finalized);
otherwise it applies `process_result`, exits the timer (recording the end
timestamp via `QueryTimer.__exit__` with no exception), and runs the
processor list once. -/
def exitTracker (w : TxWorld) (result : String) : TxWorld :=
  match w.tracker with
  | none => w
  | some t =>
    if t.endTime.isSome then w
    else
      { w with
        tracker := some ((t.processResult result).exitTimer none w.now).1,
        processorRuns := w.processorRuns + 1 }

/-- Shallow embedding of `TransactionTimingManager.start` (database.py
lines 401-415): allocate a fresh `ExitStack`, create the tracker and
register it on the stack, then enter the breadcrumb context that records
the discovered transaction name `fname`. `_start_tracker`
(`app.commons.tracing`, not in the provided sources) is modelled from the
spec (section 4.3): it "creates and enters a Timer attached to the
entity" inside the freshly allocated resource-stack scope. -/
def startTx (fname : String) (w : TxWorld) : TxWorld :=
  let w0 := { w with stack := some ([] : List StackEntry) }
  let t := { transactionTimerDefault with
              startTime := some w0.now,
              calling_function_name := fname }
  let w1 := { w0 with tracker := some t,
                      stack := some [StackEntry.timerCtx] }
  { w1 with stack := some [StackEntry.timerCtx, StackEntry.breadcrumbCtx],
            breadcrumbDepth := w1.breadcrumbDepth + 1 }

/-- Shallow embedding of `TransactionTimingManager.commit` (database.py
lines 417-423): if a tracker is present, finalize it with result
"commit"; if a stack is present, exit it with no exception.
`commitCalls` counts invocations of the phase entry point. -/
def commitTx (w : TxWorld) : TxWorld :=
  let w0 := { w with commitCalls := w.commitCalls + 1 }
  let w1 := if w0.tracker.isSome then exitTracker w0 TransactionStatus.commit
            else w0
  if w1.stack.isSome then exitStack none w1 else w1

/-- Shallow embedding of `TransactionTimingManager.rollback` (database.py
lines 425-438): if a tracker is present, finalize it with result
"rollback"; if a stack is present, exit it forwarding the supplied
exception info. -/
def rollbackTx (exc : Option ExcKind) (w : TxWorld) : TxWorld :=
  let w0 := { w with rollbackCalls := w.rollbackCalls + 1 }
  let w1 := if w0.tracker.isSome then exitTracker w0 TransactionStatus.rollback
            else w0
  if w1.stack.isSome then exitStack exc w1 else w1

/-- Shallow embedding of `TransactionTimingManager.error` (database.py
lines 440-453): if a tracker is present, finalize it with result "error";
if a stack is present, exit it with the supplied exception info.
`errorCallExcs` logs each invocation of the phase entry point together
with the exception info it received. -/
def errorTx (exc : Option ExcKind) (w : TxWorld) : TxWorld :=
  let w0 := { w with errorCallExcs := exc :: w.errorCallExcs }
  let w1 := if w0.tracker.isSome then exitTracker w0 TransactionStatus.error
            else w0
  if w1.stack.isSome then exitStack exc w1 else w1

/-- Shallow embedding of the wrapper produced by
`TransactionTimingManager.track_start` (database.py lines 455-469):
run `start`, then the wrapped operation; if the operation raises, invoke
the `error` phase with the exception info and re-raise the original
exception. `outcome` is the wrapped operation's result (`Except` models
raising). -/
def trackStart {α : Type} (fname : String) (outcome : Except ExcKind α)
    (w : TxWorld) : TxWorld × Except ExcKind α :=
  let w1 := startTx fname w
  match outcome with
  | .ok v => (w1, .ok v)
  | .error e => (errorTx (some e) w1, .error e)

/-- Shallow embedding of the wrapper produced by
`TransactionTimingManager.track_commit` (database.py lines 471-488): run
the wrapped commit operation; on success invoke the `commit` phase, on
failure invoke the `error` phase with the exception info and re-raise the
original exception. -/
def trackCommit {α : Type} (outcome : Except ExcKind α) (w : TxWorld) :
    TxWorld × Except ExcKind α :=
  match outcome with
  | .ok v => (commitTx w, .ok v)
  | .error e => (errorTx (some e) w, .error e)

/-- The idle transaction state: no tracker, no stack, nothing recorded. -/
def txWorldIdle : TxWorld := {}

/-- Unwinding one stack entry never touches the phase-invocation log or
the commit-call counter. -/
@[simp]
theorem runStackEntry_log (exc : Option ExcKind) (w : TxWorld)
    (en : StackEntry) :
    (runStackEntry exc w en).errorCallExcs = w.errorCallExcs ∧
    (runStackEntry exc w en).commitCalls = w.commitCalls := by
  cases en <;> cases h : w.tracker <;> simp [runStackEntry, h]

/-- Folding the stack unwind over any entry list never touches the
phase-invocation log or the commit-call counter. -/
theorem foldl_runStackEntry_log (exc : Option ExcKind) (l : List StackEntry)
    (w : TxWorld) :
    (l.foldl (runStackEntry exc) w).errorCallExcs = w.errorCallExcs ∧
    (l.foldl (runStackEntry exc) w).commitCalls = w.commitCalls := by
  induction l generalizing w with
  | nil => exact ⟨rfl, rfl⟩
  | cons a l ih =>
    simp only [List.foldl_cons]
    exact ⟨((ih (runStackEntry exc w a)).1).trans
            (runStackEntry_log exc w a).1,
           ((ih (runStackEntry exc w a)).2).trans
            (runStackEntry_log exc w a).2⟩

/-- `ExitStack.__exit__` never touches the phase-invocation log. -/
@[simp]
theorem exitStack_errorCallExcs (exc : Option ExcKind) (w : TxWorld) :
    (exitStack exc w).errorCallExcs = w.errorCallExcs := by
  unfold exitStack
  cases h : w.stack with
  | none => rfl
  | some entries => simpa using (foldl_runStackEntry_log exc entries.reverse w).1

/-- `ExitStack.__exit__` never touches the commit-call counter. -/
@[simp]
theorem exitStack_commitCalls (exc : Option ExcKind) (w : TxWorld) :
    (exitStack exc w).commitCalls = w.commitCalls := by
  unfold exitStack
  cases h : w.stack with
  | none => rfl
  | some entries => simpa using (foldl_runStackEntry_log exc entries.reverse w).2

/-- Tracker finalization never touches the phase-invocation log. -/
@[simp]
theorem exitTracker_errorCallExcs (w : TxWorld) (r : String) :
    (exitTracker w r).errorCallExcs = w.errorCallExcs := by
  unfold exitTracker
  cases h : w.tracker with
  | none => rfl
  | some t => dsimp only; split <;> rfl

/-- Tracker finalization never touches the commit-call counter. -/
@[simp]
theorem exitTracker_commitCalls (w : TxWorld) (r : String) :
    (exitTracker w r).commitCalls = w.commitCalls := by
  unfold exitTracker
  cases h : w.tracker with
  | none => rfl
  | some t => dsimp only; split <;> rfl

/-- The `error` phase logs exactly one invocation with the exception info
it received and never invokes the `commit` phase. -/
theorem errorTx_log (exc : Option ExcKind) (w : TxWorld) :
    (errorTx exc w).errorCallExcs = exc :: w.errorCallExcs ∧
    (errorTx exc w).commitCalls = w.commitCalls := by
  unfold errorTx
  constructor <;> (dsimp only; split <;> split <;> simp)

/-- C4: after `start` followed by `commit`, the resource scope is
released exactly once (one breadcrumb release, one processor run); a
second `commit` immediately after the first changes nothing except the
invocation counter: the spent tracker is not re-finalized, the emptied
stack releases nothing, and the processor list does not run again. -/
theorem C4_commit_releases_once (fname : String) (w : TxWorld) :
    (commitTx (startTx fname w)).breadcrumbReleases =
      w.breadcrumbReleases + 1 ∧
    (commitTx (startTx fname w)).processorRuns = w.processorRuns + 1 ∧
    commitTx (commitTx (startTx fname w)) =
      { commitTx (startTx fname w) with
          commitCalls := (commitTx (startTx fname w)).commitCalls + 1 } := by
  refine ⟨rfl, rfl, rfl⟩

/-- C5: when a `track_start`-wrapped operation raises, the `error` phase
is invoked exactly once with the raised exception's info and the original
exception is re-raised unchanged; when a `track_commit`-wrapped commit
operation raises, the `error` phase (not `commit`) is invoked with the
exception info and the original exception is re-raised unchanged. -/
theorem C5_exception_routes_to_error (fname : String) (e : ExcKind)
    (w : TxWorld) :
    (trackStart (α := Nat) fname (.error e) w).1.errorCallExcs =
      some e :: w.errorCallExcs ∧
    (trackStart (α := Nat) fname (.error e) w).2 = .error e ∧
    (trackCommit (α := Nat) (.error e) w).1.errorCallExcs =
      some e :: w.errorCallExcs ∧
    (trackCommit (α := Nat) (.error e) w).1.commitCalls = w.commitCalls ∧
    (trackCommit (α := Nat) (.error e) w).2 = .error e := by
  refine ⟨?_, rfl, ?_, ?_, rfl⟩
  · show (errorTx (some e) (startTx fname w)).errorCallExcs =
      some e :: w.errorCallExcs
    rw [(errorTx_log (some e) (startTx fname w)).1]
    rfl
  · exact (errorTx_log (some e) w).1
  · exact (errorTx_log (some e) w).2

/-- C8: in the idle state (no tracker, no stack), `commit`, `rollback`
and `error` perform no operation beyond recording that they were invoked,
and (being total functions) raise no exception. -/
theorem C8_idle_phases_noop (w : TxWorld) (exc : Option ExcKind)
    (hT : w.tracker = none) (hS : w.stack = none) :
    commitTx w = { w with commitCalls := w.commitCalls + 1 } ∧
    rollbackTx exc w = { w with rollbackCalls := w.rollbackCalls + 1 } ∧
    errorTx exc w = { w with errorCallExcs := exc :: w.errorCallExcs } := by
  refine ⟨?_, ?_, ?_⟩ <;>
    simp [commitTx, rollbackTx, errorTx, hT, hS]

/-- Witness for C8 at the concrete idle world. -/
theorem C8_idle_phases_noop_witness :
    commitTx txWorldIdle = { txWorldIdle with commitCalls := 1 } ∧
    rollbackTx none txWorldIdle = { txWorldIdle with rollbackCalls := 1 } ∧
    errorTx none txWorldIdle = { txWorldIdle with errorCallExcs := [none] } :=
  C8_idle_phases_noop txWorldIdle none rfl rfl

/-- The name the discovery loop tests for a frame:
`f.f_globals.get("__name__") or "?"` (database.py lines 84 and 90) — a
missing or falsy (empty) module name becomes "?". A frame is modelled by
its `__name__` slot, `none` when the global is absent. -/
def frameName : Option String → String
  | none => "?"
  | some s => if s = "" then "?" else s

/-- Python `p + ".startswith"` over the raw characters: `p` is a prefix
of `s`. -/
def pyStartsWith (p s : String) : Bool :=
  p.data.isPrefixOf s.data

/-- The loop condition of `_discover_caller` (database.py line 85):
`any(name.startswith(i) for i in ignores)`. -/
def startsWithAny (ignores : List String) (name : String) : Bool :=
  ignores.any fun p => pyStartsWith p name

/-- The walk of `_discover_caller` (database.py lines 83-91) over the
frame chain `frames` (current frame first, each `f_back` following),
returning the index of the frame at which the loop stops (offset by
`idx`) together with the final `name`. While the current name is ignored:
if there is no parent frame the name becomes "?" and the walk stops at
the current (root) frame; otherwise the walk advances to the parent. -/
def discoverFrom (ignores : List String) :
    List (Option String) → Nat → Nat × String
  | [], idx => (idx, "?")
  | [g], idx =>
    if startsWithAny ignores (frameName g) then (idx, "?")
    else (idx, frameName g)
  | g :: g2 :: rest, idx =>
    if startsWithAny ignores (frameName g) then
      discoverFrom ignores (g2 :: rest) (idx + 1)
    else (idx, frameName g)

/-- Shallow embedding of `_discover_caller` (database.py lines 63-91):
walk the frame chain from the current frame; the returned frame is
identified by its index in the chain. An empty chain cannot occur in
Python (`sys._getframe` always yields a frame). -/
def discoverCaller (ignores : List String)
    (frames : List (Option String)) : Nat × String :=
  discoverFrom ignores frames 0

/-- The walk stops at the first non-ignored frame and returns its index
and name. -/
theorem discoverFrom_found (ignores : List String) :
    ∀ (frames : List (Option String)) (i : Nat) (hi : i < frames.length),
    (∀ j (hj : j < frames.length), j < i →
        startsWithAny ignores (frameName frames[j]) = true) →
    startsWithAny ignores (frameName frames[i]) = false →
    ∀ idx, discoverFrom ignores frames idx = (idx + i, frameName frames[i]) := by
  intro frames
  induction frames with
  | nil => intro i hi; exact absurd hi (Nat.not_lt_zero i)
  | cons g rest ih =>
    intro i hi hbefore hit idx
    cases i with
    | zero =>
      cases rest with
      | nil => simp_all [discoverFrom]
      | cons g2 rest2 => simp_all [discoverFrom]
    | succ j =>
      have hg : startsWithAny ignores (frameName g) = true := by
        have := hbefore 0 (Nat.succ_pos _) (Nat.succ_pos _)
        simpa using this
      cases rest with
      | nil => exact absurd hi (by simp)
      | cons g2 rest2 =>
        have hj : j < (g2 :: rest2).length := Nat.lt_of_succ_lt_succ hi
        have hbefore2 : ∀ k (hk : k < (g2 :: rest2).length), k < j →
            startsWithAny ignores (frameName (g2 :: rest2)[k]) = true := by
          intro k hk hkj
          have := hbefore (k + 1) (Nat.succ_lt_succ hk) (Nat.succ_lt_succ hkj)
          simpa using this
        have hit2 : startsWithAny ignores (frameName (g2 :: rest2)[j]) = false := by
          simpa using hit
        have := ih j hj hbefore2 hit2 (idx + 1)
        calc discoverFrom ignores (g :: g2 :: rest2) idx
            = discoverFrom ignores (g2 :: rest2) (idx + 1) := by
              simp [discoverFrom, hg]
          _ = (idx + 1 + j, frameName (g2 :: rest2)[j]) := this
          _ = (idx + (j + 1), frameName (g :: g2 :: rest2)[j + 1]) := by
              simp [Nat.add_assoc, Nat.add_comm 1 j]

/-- When every frame in the chain is ignored, the walk reaches the stack
root and yields the "?" sentinel. -/
theorem discoverFrom_all_ignored (ignores : List String) :
    ∀ (frames : List (Option String)) (idx : Nat),
    (∀ g ∈ frames, startsWithAny ignores (frameName g) = true) →
    (discoverFrom ignores frames idx).2 = "?" := by
  intro frames
  induction frames with
  | nil => intro idx _; rfl
  | cons g rest ih =>
    intro idx hall
    have hg : startsWithAny ignores (frameName g) = true :=
      hall g (List.mem_cons_self g rest)
    cases rest with
    | nil => simp [discoverFrom, hg]
    | cons g2 rest2 =>
      have : discoverFrom ignores (g :: g2 :: rest2) idx =
          discoverFrom ignores (g2 :: rest2) (idx + 1) := by
        simp [discoverFrom, hg]
      rw [this]
      exact ih (idx + 1) fun g3 hg3 => hall g3 (List.mem_cons_of_mem g hg3)

/-- C7: caller discovery returns the first frame (walking outward from
the current frame) whose module name does not start with any ignored
prefix, together with that module name; if every frame up to the stack
root is ignored, it returns the "?" unknown sentinel instead of looping
or raising. -/
theorem C7_caller_discovery (ignores : List String)
    (frames : List (Option String)) (i : Nat) (hi : i < frames.length)
    (hbefore : ∀ j (hj : j < frames.length), j < i →
        startsWithAny ignores (frameName frames[j]) = true)
    (hit : startsWithAny ignores (frameName frames[i]) = false) :
    discoverCaller ignores frames = (i, frameName frames[i]) ∧
    ∀ frames2 : List (Option String),
      (∀ g ∈ frames2, startsWithAny ignores (frameName g) = true) →
      (discoverCaller ignores frames2).2 = "?" := by
  constructor
  · have := discoverFrom_found ignores frames i hi hbefore hit 0
    simpa [discoverCaller] using this
  · intro frames2 hall
    exact discoverFrom_all_ignored ignores frames2 0 hall

/-- Witness for C7: the first two frames are framework frames, the third
belongs to the application; and a chain of only framework frames yields
the sentinel. -/
theorem C7_caller_discovery_witness :
    discoverCaller ["app.commons.timing", "app.commons.tracing", "contextlib"]
        [some "app.commons.timing.database", some "contextlib",
         some "app.payin.core.processor"] =
      (2, "app.payin.core.processor") ∧
    (discoverCaller ["app.commons.timing", "app.commons.tracing", "contextlib"]
        [some "app.commons.tracing.base", some "contextlib"]).2 = "?" :=
  ⟨(C7_caller_discovery
      ["app.commons.timing", "app.commons.tracing", "contextlib"]
      [some "app.commons.timing.database", some "contextlib",
       some "app.payin.core.processor"] 2 (by decide)
      (by decide) (by decide)).1,
   (C7_caller_discovery
      ["app.commons.timing", "app.commons.tracing", "contextlib"]
      [some "app.commons.timing.database", some "contextlib",
       some "app.payin.core.processor"] 2 (by decide)
      (by decide) (by decide)).2
     [some "app.commons.tracing.base", some "contextlib"] (by decide)⟩

/-- A delivery error reported by the Kafka client to the `ack` callback
(abstract: only identity matters). -/
structure KafkaErr where
  code : Nat
  deriving DecidableEq, Repr

/-- The translated exception `KafkaException(err)` built by the callback
(async_kafka_producer.py line 33). -/
structure KafkaExc where
  err : KafkaErr
  deriving DecidableEq, Repr

/-- Delivered message metadata handed to the callback on success. -/
structure KafkaMsg where
  topic : String
  value : String
  deriving DecidableEq, Repr

/-- A resolution marshalled onto the owning event loop through
`loop.call_soon_threadsafe` — either `result.set_result msg` or
`result.set_exception (KafkaException err)`. -/
inductive LoopCall where
  | setResult (m : KafkaMsg)
  | setException (e : KafkaExc)
  deriving DecidableEq, Repr

/-- State of one `produce` invocation: the returned future (`none` while
unresolved) and the owning loop's queue of thread-safe calls. asyncio's
`call_soon_threadsafe` (external library, modelled by its documented
semantics) only enqueues the call; the loop itself runs it later on its
own thread. -/
structure ProduceWorld where
  future : Option (Except KafkaExc KafkaMsg) := none
  loopQueue : List LoopCall := []
  deriving Repr

/-- Shallow embedding of the state right after
`KafkaMessageProducer.produce` (async_kafka_producer.py lines 24-39):
`self._loop.create_future()` yields an unresolved future and nothing has
been scheduled. -/
def produceWorld : ProduceWorld := {}

/-- Shallow embedding of the `ack` closure (async_kafka_producer.py lines
30-36), invoked later by the client from the background poll thread with
`(err, msg)`. Python's `if err:` is modelled with `none` as the falsy
case. The callback only enqueues a thread-safe call on the owning loop;
it never writes the future directly. -/
def KafkaMessageProducer.ack (err : Option KafkaErr) (msg : KafkaMsg)
    (w : ProduceWorld) : ProduceWorld :=
  match err with
  | some e => { w with loopQueue := w.loopQueue ++ [LoopCall.setException ⟨e⟩] }
  | none => { w with loopQueue := w.loopQueue ++ [LoopCall.setResult msg] }

/-- The owning event loop running the next marshalled call: asyncio's
`Future.set_result` / `Future.set_exception` fulfil or reject an
unresolved future and raise `InvalidStateError` (modelled as `none`) on
an already-resolved one. -/
def runLoopCall (w : ProduceWorld) : Option ProduceWorld :=
  match w.loopQueue with
  | [] => some w
  | c :: rest =>
    match w.future with
    | some _ => none
    | none =>
      match c with
      | .setResult m => some { future := some (.ok m), loopQueue := rest }
      | .setException e => some { future := some (.error e), loopQueue := rest }

/-- C6: a delivery callback with a null error and a message schedules the
future's fulfilment with that message, and a callback with a non-null
error schedules rejection with the translated `KafkaException`; exactly
one resolution call is scheduled per callback invocation, the future is
never resolved directly from the background thread, and running the
scheduled call on the owning loop resolves the future accordingly. -/
theorem C6_produce_delivery (err : Option KafkaErr) (msg : KafkaMsg)
    (w : ProduceWorld) :
    (KafkaMessageProducer.ack err msg w).future = w.future ∧
    (KafkaMessageProducer.ack none msg w).loopQueue = w.loopQueue ++ [LoopCall.setResult msg] ∧
    (∀ e : KafkaErr, (KafkaMessageProducer.ack (some e) msg w).loopQueue =
        w.loopQueue ++ [LoopCall.setException ⟨e⟩]) ∧
    runLoopCall (KafkaMessageProducer.ack none msg produceWorld) =
      some { future := some (.ok msg), loopQueue := [] } ∧
    ∀ e : KafkaErr, runLoopCall (KafkaMessageProducer.ack (some e) msg produceWorld) =
      some { future := some (.error ⟨e⟩), loopQueue := [] } := by
  refine ⟨?_, rfl, fun e => rfl, rfl, fun e => rfl⟩
  cases err <;> rfl

/-- Program counter of the background polling thread
(async_kafka_producer.py lines 16-18): at the `while not self._cancelled`
check, inside one `self._producer.poll(0.1)` call, or exited. -/
inductive PollPC where
  | check
  | polling
  | done
  deriving DecidableEq, Repr

/-- The producer's cancellation flag and polling-thread state. `polls`
counts completed `poll(0.1)` calls. -/
structure ProducerState where
  cancelled : Bool := false
  pc : PollPC := .check
  polls : Nat := 0
  deriving DecidableEq, Repr

/-- One step of `_poll_loop`: at the check, read `_cancelled` and either
exit the loop or begin one `poll(0.1)` call; completing a poll returns to
the check; an exited loop stays exited. -/
def pollStep (s : ProducerState) : ProducerState :=
  match s.pc with
  | .check =>
    if s.cancelled then { s with pc := .done } else { s with pc := .polling }
  | .polling => { s with pc := .check, polls := s.polls + 1 }
  | .done => s

/-- The loop condition `not self._cancelled`. -/
def pollLoopCond (s : ProducerState) : Bool := !s.cancelled

/-- The bounded timeout `stop` passes to `Thread.join`
(async_kafka_producer.py line 22). -/
def joinTimeoutSeconds : Nat := 3

/-- Shallow embedding of `KafkaMessageProducer.stop`
(async_kafka_producer.py lines 20-22): set `_cancelled` and join the poll
thread with the bounded timeout (returned alongside the new state).
`stop` mutates nothing else; `Thread.join` on a thread that already
exited returns immediately and raises nothing. -/
def stop (s : ProducerState) : ProducerState × Nat :=
  ({ s with cancelled := true }, joinTimeoutSeconds)

/-- C10: `stop` sets the cancellation flag and passes the bounded
3-second join timeout; once the flag is set the loop condition is false,
no new poll is started from a check, and from any thread position the
loop reaches the exited state within two steps having completed at most
one further poll; `stop` on an already-exited thread is an ordinary
no-throw update of the flag. -/
theorem C10_stop_terminates_polling (s : ProducerState) :
    (stop s).2 = 3 ∧
    (stop s).1.cancelled = true ∧
    pollLoopCond (stop s).1 = false ∧
    (pollStep (pollStep (stop s).1)).pc = PollPC.done ∧
    (pollStep (pollStep (stop s).1)).polls ≤ s.polls + 1 ∧
    pollStep { s with cancelled := true, pc := PollPC.check } =
      { s with cancelled := true, pc := PollPC.done } ∧
    stop { s with pc := PollPC.done } =
      ({ s with pc := PollPC.done, cancelled := true }, 3) ∧
    (pollStep s).cancelled = s.cancelled := by
  refine ⟨rfl, rfl, rfl, ?_, ?_, rfl, rfl, ?_⟩ <;>
    cases hpc : s.pc <;> cases hc : s.cancelled <;>
      simp [stop, pollStep, hpc, hc, joinTimeoutSeconds]
